import Mathlib

/-!
Shallow embedding of `earthquakes.py` (the earthquake-statistics script):
the record data model, the maximum-finder `get_maximum`, the module-level
year derivation and per-year aggregation, together with theorems settling
the specification claims about them.

Python floats are modelled by exact rationals `ℚ`; Python `None` by
`Option.none`; a Python run-time exception by `Except.error` carrying the
exception kind.  JSON `features` items become the structure `Earthquake`.
-/

/-- Kind of Python exception the script can raise on the modelled paths.
`indexError` models `IndexError` from `data["features"][0]` on an empty
list; `typeError` models `TypeError` from comparing or adding `None` with
a number.  `emptyCollectionError` is modelled from the spec: the spec
names a dedicated `EmptyCollectionError`, which does not exist anywhere
in the source. -/
inductive PyError where
  | indexError
  | typeError
  | emptyCollectionError
  deriving DecidableEq

deriving instance DecidableEq for Except

/-- One element of `data['features']`: `properties.mag` (may be JSON
null), `properties.time` (integer epoch milliseconds), and the first two
entries of `geometry.coordinates` (longitude, latitude). -/
structure Earthquake where
  mag : Option ℚ
  time : Int
  lon : ℚ
  lat : ℚ
  deriving DecidableEq

/-- `count_earthquakes(data)`: `len(data['features'])`. -/
def count_earthquakes (data : List Earthquake) : Nat :=
  data.length

/-- `get_magnitude(earthquake)`: `earthquake['properties']['mag']`. -/
def get_magnitude (e : Earthquake) : Option ℚ :=
  e.mag

/-- `get_location(earthquake)`: the pair
`(coordinates[0], coordinates[1])`. -/
def get_location (e : Earthquake) : ℚ × ℚ :=
  (e.lon, e.lat)

/-- The `for` loop of `get_maximum`, carrying the running
`current_max_magnitude` and `current_max_location`.  The comparison
`magnitude > current_max_magnitude` raises `TypeError` in Python 3
whenever either side is `None`, which the catch-all match arm models. -/
def maxLoop : List Earthquake → Option ℚ → ℚ × ℚ →
    Except PyError (Option ℚ × (ℚ × ℚ))
  | [], m, l => Except.ok (m, l)
  | e :: rest, m, l =>
    match get_magnitude e, m with
    | some x, some cm =>
      if cm < x then maxLoop rest (some x) (get_location e)
      else maxLoop rest (some cm) l
    | _, _ => Except.error PyError.typeError

/-- `get_maximum(data)`: initialises the running best from
`data["features"][0]` (raising `IndexError` when the list is empty) and
then scans the whole list, replacing the best only on a strictly greater
magnitude. -/
def get_maximum (data : List Earthquake) :
    Except PyError (Option ℚ × (ℚ × ℚ)) :=
  match data with
  | [] => Except.error PyError.indexError
  | e0 :: _ => maxLoop data (get_magnitude e0) (get_location e0)

/-- Python `int(q)`: truncation toward zero of a real value, here
computed over exact rationals. -/
def pyInt (q : ℚ) : Int :=
  if 0 ≤ q then ⌊q⌋ else ⌈q⌉

/-- The module-level year derivation:
`int(1970 + (time_ms / 1000) / (60 * 60 * 24 * 365.25))`.
`60 * 60 * 24 * 365.25 = 31557600` exactly, so the float expression is
modelled by the exact rational `1970 + time_ms / 1000 / 31557600`. -/
def codeYear (time_ms : Int) : Int :=
  pyInt ((1970 : ℚ) + (time_ms : ℚ) / 1000 / 31557600)

/-- Modelled from the spec: exact UTC calendar decomposition of a day
count (days since 1970-01-01) into the calendar year, following the
standard proleptic-Gregorian civil-from-days algorithm.  The source has
no such function; the spec's contract for `year_of` requires it. -/
def civilYearFromDays (z0 : Int) : Int :=
  let z := z0 + 719468
  let era := Int.fdiv z 146097
  let doe := z - era * 146097
  let yoe := (doe - doe / 1460 + doe / 36524 - doe / 146096) / 365
  let y := yoe + era * 400
  let doy := doe - (365 * yoe + yoe / 4 - yoe / 100)
  let mp := (5 * doy + 2) / 153
  let m := mp + (if mp < 10 then 3 else -9)
  y + (if m ≤ 2 then 1 else 0)

/-- Modelled from the spec: the UTC calendar year of an epoch-millisecond
timestamp under exact calendar decomposition. -/
def utcYearOfMillis (time_ms : Int) : Int :=
  civilYearFromDays (Int.fdiv time_ms 86400000)

/-- The module-level list `years`: one entry per record, in feed order. -/
def yearsOf (data : List Earthquake) : List Int :=
  data.map (fun e => codeYear e.time)

/-- The module-level list `magnitudes`: one entry per record, in feed
order; a JSON-null magnitude stays `none` in the list. -/
def magnitudesOf (data : List Earthquake) : List (Option ℚ) :=
  data.map get_magnitude

/-- Ordered insertion of a year into a sorted duplicate-free list;
building block for the model of `np.unique`. -/
def insertSorted (y : Int) : List Int → List Int
  | [] => [y]
  | x :: xs =>
    if y < x then y :: x :: xs
    else if y = x then x :: xs
    else x :: insertSorted y xs

/-- `np.unique(years)` by its documented semantics: the sorted list of
the distinct values occurring in the input. -/
def uniqueSorted : List Int → List Int
  | [] => []
  | x :: xs => insertSorted x (uniqueSorted xs)

/-- Left-to-right sum of a list of optional floats; adding `None` to a
number raises `TypeError`, as `numpy.mean` does on an object array that
contains `None`. -/
def sumOpt : List (Option ℚ) → Except PyError ℚ
  | [] => Except.ok 0
  | none :: _ => Except.error PyError.typeError
  | some x :: rest => Except.map (fun s => x + s) (sumOpt rest)

/-- `numpy.ndarray.mean` on the (possibly `None`-containing) magnitude
selection: the sum divided by the element count. -/
def npMeanList (l : List (Option ℚ)) : Except PyError ℚ :=
  Except.map (fun s => s / (l.length : ℚ)) (sumOpt l)

/-- The boolean-mask selection `magnitudes[years == year]`: the
magnitude entries at the positions whose year equals `y`. -/
def magsInYear (data : List Earthquake) (y : Int) : List (Option ℚ) :=
  (((yearsOf data).zip (magnitudesOf data)).filter (fun p => p.1 == y)).map
    Prod.snd

/-- The per-year summary the script prints and plots: for each year of
`np.unique(years, return_counts=True)`, the year, its occurrence count,
and `magnitudes[years == year].mean()`. -/
def yearTable (data : List Earthquake) :
    List (Int × Nat × Except PyError ℚ) :=
  (uniqueSorted (yearsOf data)).map
    (fun y => (y, (yearsOf data).count y, npMeanList (magsInYear data y)))

/-- On a non-negative timestamp the code's year formula is `1970` plus
the floor division of the milliseconds by `31557600000`, the number of
milliseconds in an average Julian year of 365.25 days. -/
theorem codeYear_eq_int (t : Int) (h : 0 ≤ t) :
    codeYear t = 1970 + t / 31557600000 := by
  have hcast : (1970 : ℚ) + (t : ℚ) / 1000 / 31557600
      = ((1970 : ℤ) : ℚ) + (t : ℚ) / ((31557600000 : ℕ) : ℚ) := by
    rw [div_div]
    norm_num
  have ht : (0 : ℚ) ≤ (t : ℚ) := by exact_mod_cast h
  have hq : (0 : ℚ) ≤ (1970 : ℚ) + (t : ℚ) / 1000 / 31557600 := by
    have hd : (0 : ℚ) ≤ (t : ℚ) / 1000 / 31557600 := by positivity
    linarith
  unfold codeYear pyInt
  rw [if_pos hq, hcast, Int.floor_int_add, Rat.floor_intCast_div_natCast]
  norm_num

/-- Invariant of the scan loop when the running best and every remaining
magnitude are non-null: the loop succeeds, the running best never
decreases, every remaining magnitude is bounded by the final best, and
the final best either is the unchanged starting value or comes from the
first remaining record that strictly exceeded everything before it. -/
theorem maxLoop_spec (rest : List Earthquake) (cm : ℚ) (l : ℚ × ℚ)
    (hnn : ∀ e ∈ rest, e.mag ≠ none) :
    ∃ m fl, maxLoop rest (some cm) l = Except.ok (some m, fl) ∧
      cm ≤ m ∧
      (∀ e ∈ rest, ∀ x, e.mag = some x → x ≤ m) ∧
      ((m = cm ∧ fl = l) ∨
        ∃ pre e post, rest = pre ++ e :: post ∧ e.mag = some m ∧
          get_location e = fl ∧ cm < m ∧
          ∀ eb ∈ pre, ∀ x, eb.mag = some x → x < m) := by
  induction rest generalizing cm l with
  | nil => exact ⟨cm, l, rfl, le_refl cm, by simp, Or.inl ⟨rfl, rfl⟩⟩
  | cons e rest ih =>
    obtain ⟨x, hx⟩ : ∃ x, e.mag = some x := by
      cases hmag : e.mag with
      | none => exact absurd hmag (hnn e (List.mem_cons_self e rest))
      | some x => exact ⟨x, rfl⟩
    have hnn2 : ∀ eb ∈ rest, eb.mag ≠ none :=
      fun eb heb => hnn eb (List.mem_cons_of_mem e heb)
    have hstep : maxLoop (e :: rest) (some cm) l =
        (if cm < x then maxLoop rest (some x) (get_location e)
         else maxLoop rest (some cm) l) := by
      show (match get_magnitude e, some cm with
        | some x, some cm =>
          if cm < x then maxLoop rest (some x) (get_location e)
          else maxLoop rest (some cm) l
        | _, _ => Except.error PyError.typeError) = _
      rw [show get_magnitude e = some x from hx]
    by_cases hlt : cm < x
    · obtain ⟨m, fl, hrun, hle, hbound, hdisj⟩ := ih x (get_location e) hnn2
      refine ⟨m, fl, ?_, le_of_lt (lt_of_lt_of_le hlt hle), ?_, ?_⟩
      · rw [hstep, if_pos hlt, hrun]
      · intro eb heb xb hxb
        rcases List.mem_cons.mp heb with rfl | heb
        · rw [hx] at hxb
          injection hxb with hxx
          rw [← hxx]
          exact hle
        · exact hbound eb heb xb hxb
      · rcases hdisj with ⟨hm, hl⟩ | ⟨pre, e2, post, hsplit, hm2, hl2, hlt2, hpre⟩
        · refine Or.inr ⟨[], e, rest, rfl, ?_, ?_, ?_, ?_⟩
          · rw [hm]; exact hx
          · exact hl.symm
          · rw [hm]; exact hlt
          · intro eb heb; cases heb
        · refine Or.inr ⟨e :: pre, e2, post, by rw [hsplit, List.cons_append], hm2, hl2,
            lt_trans hlt hlt2, ?_⟩
          intro eb heb xb hxb
          rcases List.mem_cons.mp heb with rfl | heb
          · rw [hx] at hxb
            injection hxb with hxx
            rw [← hxx]
            exact hlt2
          · exact hpre eb heb xb hxb
    · obtain ⟨m, fl, hrun, hle, hbound, hdisj⟩ := ih cm l hnn2
      have hxle : x ≤ cm := not_lt.mp hlt
      refine ⟨m, fl, ?_, hle, ?_, ?_⟩
      · rw [hstep, if_neg hlt, hrun]
      · intro eb heb xb hxb
        rcases List.mem_cons.mp heb with rfl | heb
        · rw [hx] at hxb
          injection hxb with hxx
          rw [← hxx]
          exact le_trans hxle hle
        · exact hbound eb heb xb hxb
      · rcases hdisj with hkeep | ⟨pre, e2, post, hsplit, hm2, hl2, hlt2, hpre⟩
        · exact Or.inl hkeep
        · refine Or.inr ⟨e :: pre, e2, post, by rw [hsplit, List.cons_append], hm2, hl2, hlt2, ?_⟩
          intro eb heb xb hxb
          rcases List.mem_cons.mp heb with rfl | heb
          · rw [hx] at hxb
            injection hxb with hxx
            rw [← hxx]
            exact lt_of_le_of_lt hxle hlt2
          · exact hpre eb heb xb hxb

/-- Full characterisation of `get_maximum` on a non-empty collection all
of whose magnitudes are non-null: it returns the magnitude and location
of the first record attaining the maximal magnitude. -/
theorem get_maximum_spec (data : List Earthquake) (hne : data ≠ [])
    (hnn : ∀ e ∈ data, e.mag ≠ none) :
    ∃ m loc pre e post, get_maximum data = Except.ok (some m, loc) ∧
      data = pre ++ e :: post ∧ e.mag = some m ∧ get_location e = loc ∧
      (∀ eb ∈ pre, ∀ x, eb.mag = some x → x < m) ∧
      (∀ eb ∈ data, ∀ x, eb.mag = some x → x ≤ m) := by
  match data, hne with
  | e0 :: tl, _ =>
    obtain ⟨x0, hx0⟩ : ∃ x, e0.mag = some x := by
      cases hmag : e0.mag with
      | none => exact absurd hmag (hnn e0 (List.mem_cons_self e0 tl))
      | some x => exact ⟨x, rfl⟩
    obtain ⟨m, fl, hrun, hle, hbound, hdisj⟩ :=
      maxLoop_spec (e0 :: tl) x0 (get_location e0) hnn
    have hrun2 : get_maximum (e0 :: tl) = Except.ok (some m, fl) := by
      show maxLoop (e0 :: tl) (get_magnitude e0) (get_location e0) = _
      rw [show get_magnitude e0 = some x0 from hx0, hrun]
    rcases hdisj with ⟨hm, hl⟩ | ⟨pre, e2, post, hsplit, hm2, hl2, _, hpre⟩
    · refine ⟨m, fl, [], e0, tl, hrun2, rfl, ?_, ?_, ?_, hbound⟩
      · rw [hm]; exact hx0
      · exact hl.symm
      · intro eb heb; cases heb
    · exact ⟨m, fl, pre, e2, post, hrun2, hsplit, hm2, hl2, hpre, hbound⟩

/-- Membership in an ordered insertion. -/
theorem mem_insertSorted (y a : Int) (l : List Int) :
    a ∈ insertSorted y l ↔ a = y ∨ a ∈ l := by
  induction l with
  | nil => simp [insertSorted]
  | cons x xs ih =>
    by_cases h1 : y < x
    · simp [insertSorted, h1]
    · by_cases h2 : y = x
      · subst h2
        simp [insertSorted, h1]
      · simp [insertSorted, h1, h2, ih]
        tauto

/-- Ordered insertion preserves strict sortedness. -/
theorem sorted_insertSorted (y : Int) (l : List Int)
    (hs : List.Sorted (fun a b => a < b) l) :
    List.Sorted (fun a b => a < b) (insertSorted y l) := by
  induction l with
  | nil => simp [insertSorted]
  | cons x xs ih =>
    rw [List.sorted_cons] at hs
    obtain ⟨hx, hxs⟩ := hs
    by_cases h1 : y < x
    · rw [show insertSorted y (x :: xs) = y :: x :: xs from by
        simp [insertSorted, h1]]
      rw [List.sorted_cons]
      refine ⟨?_, List.sorted_cons.mpr ⟨hx, hxs⟩⟩
      intro b hb
      rcases List.mem_cons.mp hb with rfl | hb
      · exact h1
      · exact lt_trans h1 (hx b hb)
    · by_cases h2 : y = x
      · rw [show insertSorted y (x :: xs) = x :: xs from by
          simp [insertSorted, h1, h2]]
        exact List.sorted_cons.mpr ⟨hx, hxs⟩
      · have hxy : x < y :=
          lt_of_le_of_ne (not_lt.mp h1) (fun hc => h2 hc.symm)
        rw [show insertSorted y (x :: xs) = x :: insertSorted y xs from by
          simp [insertSorted, h1, h2]]
        rw [List.sorted_cons]
        refine ⟨?_, ih hxs⟩
        intro b hb
        rcases (mem_insertSorted y b xs).mp hb with rfl | hb
        · exact hxy
        · exact hx b hb

/-- The model of `np.unique` always yields a strictly sorted list. -/
theorem sorted_uniqueSorted (l : List Int) :
    List.Sorted (fun a b => a < b) (uniqueSorted l) := by
  induction l with
  | nil => simp [uniqueSorted]
  | cons x xs ih => exact sorted_insertSorted x (uniqueSorted xs) ih

/-- The model of `np.unique` keeps exactly the values of the input. -/
theorem mem_uniqueSorted (a : Int) (l : List Int) :
    a ∈ uniqueSorted l ↔ a ∈ l := by
  induction l with
  | nil => simp [uniqueSorted]
  | cons x xs ih => simp [uniqueSorted, mem_insertSorted, ih]

/-- The model of `np.unique` is a permutation of `dedup`. -/
theorem uniqueSorted_perm_dedup (l : List Int) :
    List.Perm (uniqueSorted l) l.dedup :=
  (List.perm_ext_iff_of_nodup (sorted_uniqueSorted l).nodup l.nodup_dedup).mpr
    (fun a => by rw [mem_uniqueSorted, List.mem_dedup])

/-- Summing a list of optional floats that contains no null succeeds
with the sum of the underlying values. -/
theorem sumOpt_all_some (l : List (Option ℚ)) (h : ∀ o ∈ l, o ≠ none) :
    sumOpt l = Except.ok (l.filterMap id).sum := by
  induction l with
  | nil => simp [sumOpt]
  | cons o rest ih =>
    cases o with
    | none => exact absurd rfl (h none (List.mem_cons_self none rest))
    | some x =>
      rw [show sumOpt (some x :: rest)
          = Except.map (fun s => x + s) (sumOpt rest) from rfl,
        ih (fun o ho => h o (List.mem_cons_of_mem _ ho))]
      simp [Except.map, List.filterMap_cons]

/-- Summing a list of optional floats that contains a null raises
`TypeError`. -/
theorem sumOpt_has_none (l : List (Option ℚ)) (h : none ∈ l) :
    sumOpt l = Except.error PyError.typeError := by
  induction l with
  | nil => cases h
  | cons o rest ih =>
    cases o with
    | none => rfl
    | some x =>
      have hr : none ∈ rest := by
        rcases List.mem_cons.mp h with hc | hr
        · exact Option.noConfusion hc
        · exact hr
      rw [show sumOpt (some x :: rest)
          = Except.map (fun s => x + s) (sumOpt rest) from rfl, ih hr]
      rfl

/-- The boolean-mask selection picks the magnitudes of exactly the
records whose derived year is `y`, in feed order. -/
theorem magsInYear_eq (data : List Earthquake) (y : Int) :
    magsInYear data y =
      (data.filter (fun e => codeYear e.time == y)).map get_magnitude := by
  simp [magsInYear, yearsOf, magnitudesOf, List.zip_map', List.filter_map,
    List.map_map]
  rfl

/-- The `np.unique` occurrence count of a year equals the number of
records deriving that year. -/
theorem count_yearsOf (data : List Earthquake) (y : Int) :
    (yearsOf data).count y = data.countP (fun e => codeYear e.time == y) := by
  simp [yearsOf, List.count, List.countP_map]
  rfl

/-- The number of selected magnitudes of a year equals that year's
occurrence count. -/
theorem length_magsInYear (data : List Earthquake) (y : Int) :
    (magsInYear data y).length = (yearsOf data).count y := by
  rw [magsInYear_eq, List.length_map, count_yearsOf,
    List.countP_eq_length_filter]

/-- C1 (amended to collections without null magnitudes): for a non-empty
collection all of whose magnitudes are non-null, `get_maximum` returns a
magnitude equal to the true maximum of the magnitudes together with the
location of a record carrying that magnitude. -/
theorem get_maximum_is_true_max (data : List Earthquake) (hne : data ≠ [])
    (hnn : ∀ e ∈ data, e.mag ≠ none) :
    ∃ m loc, get_maximum data = Except.ok (some m, loc) ∧
      (∀ e ∈ data, ∀ x, e.mag = some x → x ≤ m) ∧
      ∃ e ∈ data, e.mag = some m ∧ get_location e = loc := by
  obtain ⟨m, loc, pre, e, post, hrun, hsplit, hm, hl, hpre, hbound⟩ :=
    get_maximum_spec data hne hnn
  refine ⟨m, loc, hrun, hbound, e, ?_, hm, hl⟩
  rw [hsplit]
  exact List.mem_append_right pre (List.mem_cons_self e post)

/-- C1 counterexample: on a non-empty collection whose non-null maximum
is 5 but which also holds a record with null magnitude, the scan raises
`TypeError` instead of returning magnitude 5 with a location. -/
theorem get_maximum_not_total_on_nulls :
    get_maximum [⟨some 5, 0, 1, 2⟩, ⟨none, 10, 3, 4⟩] =
      Except.error PyError.typeError := by decide

/-- C1 witness at a concrete two-record collection. -/
theorem get_maximum_is_true_max_witness :
    (([⟨some 5, 0, 1, 2⟩, ⟨some 7, 100, 3, 4⟩] : List Earthquake) ≠ [] ∧
      (∀ e ∈ ([⟨some 5, 0, 1, 2⟩, ⟨some 7, 100, 3, 4⟩] : List Earthquake),
        e.mag ≠ none)) ∧
    ∃ m loc,
      get_maximum [⟨some 5, 0, 1, 2⟩, ⟨some 7, 100, 3, 4⟩] =
        Except.ok (some m, loc) ∧
      (∀ e ∈ ([⟨some 5, 0, 1, 2⟩, ⟨some 7, 100, 3, 4⟩] : List Earthquake),
        ∀ x, e.mag = some x → x ≤ m) ∧
      ∃ e ∈ ([⟨some 5, 0, 1, 2⟩, ⟨some 7, 100, 3, 4⟩] : List Earthquake),
        e.mag = some m ∧ get_location e = loc :=
  ⟨⟨by decide, by decide⟩,
    get_maximum_is_true_max _ (by decide) (by decide)⟩

/-- C5 (amended to collections without null magnitudes): the result of
`get_maximum` comes from the earliest-indexed record carrying the
maximal magnitude: every record before it is strictly smaller, every
record overall is bounded by it, and ties are never taken over. -/
theorem get_maximum_tie_keeps_earliest (data : List Earthquake)
    (hne : data ≠ []) (hnn : ∀ e ∈ data, e.mag ≠ none) :
    ∃ m loc pre e post, get_maximum data = Except.ok (some m, loc) ∧
      data = pre ++ e :: post ∧ e.mag = some m ∧ get_location e = loc ∧
      (∀ eb ∈ pre, ∀ x, eb.mag = some x → x < m) ∧
      (∀ eb ∈ data, ∀ x, eb.mag = some x → x ≤ m) :=
  get_maximum_spec data hne hnn

/-- C5 counterexample: a collection with a tie of maximal magnitude 7
and a null magnitude crashes with `TypeError` instead of returning the
earlier of the tied records. -/
theorem get_maximum_tie_crashes_on_null :
    get_maximum [⟨none, 0, 0, 0⟩, ⟨some 7, 0, 1, 2⟩, ⟨some 7, 0, 3, 4⟩] =
      Except.error PyError.typeError := by decide

/-- C5 witness at a concrete collection with a tie of maximal
magnitude 7 at the second and third records. -/
theorem get_maximum_tie_keeps_earliest_witness :
    (([⟨some 5, 0, 1, 2⟩, ⟨some 7, 0, 3, 4⟩, ⟨some 7, 0, 8, 9⟩] :
        List Earthquake) ≠ [] ∧
      (∀ e ∈ ([⟨some 5, 0, 1, 2⟩, ⟨some 7, 0, 3, 4⟩, ⟨some 7, 0, 8, 9⟩] :
          List Earthquake), e.mag ≠ none)) ∧
    ∃ m loc pre e post,
      get_maximum [⟨some 5, 0, 1, 2⟩, ⟨some 7, 0, 3, 4⟩, ⟨some 7, 0, 8, 9⟩] =
        Except.ok (some m, loc) ∧
      ([⟨some 5, 0, 1, 2⟩, ⟨some 7, 0, 3, 4⟩, ⟨some 7, 0, 8, 9⟩] :
        List Earthquake) = pre ++ e :: post ∧
      e.mag = some m ∧ get_location e = loc ∧
      (∀ eb ∈ pre, ∀ x, eb.mag = some x → x < m) ∧
      (∀ eb ∈ ([⟨some 5, 0, 1, 2⟩, ⟨some 7, 0, 3, 4⟩, ⟨some 7, 0, 8, 9⟩] :
          List Earthquake), ∀ x, eb.mag = some x → x ≤ m) :=
  ⟨⟨by decide, by decide⟩,
    get_maximum_tie_keeps_earliest _ (by decide) (by decide)⟩

/-- C4: contrary to the claim, a null magnitude is not skipped: the
comparison `magnitude > current_max_magnitude` raises `TypeError`, so on
a one-record collection with null magnitude the scan fails instead of
completing. -/
theorem get_maximum_crashes_on_null_magnitude :
    get_maximum [⟨none, 0, 0, 0⟩] = Except.error PyError.typeError := by
  decide

/-- C6 (amended): on the empty collection `get_maximum` fails — with the
generic `IndexError` raised by `data["features"][0]` rather than a
dedicated empty-collection error — and never returns a default result. -/
theorem get_maximum_empty_raises :
    get_maximum [] = Except.error PyError.indexError := rfl

/-- C6 counterexample: the failure on the empty collection is the
generic `IndexError`, not the dedicated `EmptyCollectionError` the claim
names. -/
theorem get_maximum_empty_not_emptyCollectionError :
    get_maximum [] = Except.error PyError.indexError ∧
    get_maximum [] ≠ Except.error PyError.emptyCollectionError := by decide

/-- C2: the code's year derivation disagrees with exact UTC calendar
decomposition at the year-2000 boundary: 2000-01-01T00:00:00.000Z
(946684800000 ms) is assigned year 1999 by the averaged-seconds-per-year
formula while its exact UTC calendar year is 2000; the timestamp one
millisecond earlier (1999-12-31T23:59:59.999Z) is assigned 1999 by
both. -/
theorem codeYear_wrong_at_year_boundary :
    codeYear 946684800000 = 1999 ∧ utcYearOfMillis 946684800000 = 2000 ∧
    codeYear 946684799999 = 1999 ∧ utcYearOfMillis 946684799999 = 1999 := by
  refine ⟨?_, by decide, ?_, by decide⟩
  · rw [codeYear_eq_int _ (by decide)]; decide
  · rw [codeYear_eq_int _ (by decide)]; decide

/-- C10: the code's year derivation is monotone non-decreasing on
non-negative timestamps. -/
theorem codeYear_monotone (t1 t2 : Int) (h0 : 0 ≤ t1) (h12 : t1 ≤ t2) :
    codeYear t1 ≤ codeYear t2 := by
  rw [codeYear_eq_int t1 h0, codeYear_eq_int t2 (le_trans h0 h12)]
  have hdiv := Int.ediv_le_ediv (by decide : (0 : Int) < 31557600000) h12
  omega

/-- C10 witness at the timestamps 0 and 63072000000. -/
theorem codeYear_monotone_witness :
    ((0 : Int) ≤ 0 ∧ (0 : Int) ≤ 63072000000) ∧
      codeYear 0 ≤ codeYear 63072000000 :=
  ⟨⟨by decide, by decide⟩,
    codeYear_monotone 0 63072000000 (by decide) (by decide)⟩

/-- C7: on the empty collection the year aggregation succeeds with the
empty table. -/
theorem yearTable_empty : yearTable [] = [] := rfl

/-- C8: the years of the aggregation output are strictly ascending and
hence duplicate-free, whatever the feed order. -/
theorem yearTable_years_strictly_ascending (data : List Earthquake) :
    List.Sorted (fun a b => a < b) ((yearTable data).map Prod.fst) := by
  have h : (yearTable data).map Prod.fst = uniqueSorted (yearsOf data) := by
    simp [yearTable, List.map_map, Function.comp_def]
  rw [h]
  exact sorted_uniqueSorted (yearsOf data)

/-- C9: the per-year occurrence counts of the aggregation output sum to
the total record count, records with null magnitude included. -/
theorem yearTable_counts_sum_to_total (data : List Earthquake) :
    ((yearTable data).map (fun r => r.2.1)).sum = count_earthquakes data := by
  have h : (yearTable data).map (fun r => r.2.1)
      = (uniqueSorted (yearsOf data)).map
          (fun y => (yearsOf data).count y) := by
    simp [yearTable, List.map_map]
  rw [h]
  have hperm := (uniqueSorted_perm_dedup (yearsOf data)).map
    (fun y => (yearsOf data).count y)
  rw [hperm.sum_eq, List.sum_map_count_dedup_eq_length]
  simp [yearsOf, count_earthquakes]

/-- C3 (amended): every output entry counts ALL records of its year —
records with null magnitude included — and its average is over all that
year's magnitude entries: it is their sum divided by their number when
none is null, and a `TypeError` when one is null. -/
theorem yearTable_entry_characterisation (data : List Earthquake) (y : Int)
    (c : Nat) (a : Except PyError ℚ)
    (hmem : (y, c, a) ∈ yearTable data) :
    c = data.countP (fun e => codeYear e.time == y) ∧
    ((∀ e ∈ data, codeYear e.time = y → e.mag ≠ none) →
      a = Except.ok
        (((data.filter (fun e => codeYear e.time == y)).filterMap
            get_magnitude).sum / (c : ℚ))) ∧
    ((∃ e ∈ data, codeYear e.time = y ∧ e.mag = none) →
      a = Except.error PyError.typeError) := by
  obtain ⟨y0, hy0, heq⟩ := List.mem_map.mp hmem
  injection heq with h1 h23
  injection h23 with h2 h3
  subst h1
  subst h2
  subst h3
  refine ⟨count_yearsOf data y0, ?_, ?_⟩
  · intro hall
    have hns : ∀ o ∈ magsInYear data y0, o ≠ none := by
      intro o ho
      rw [magsInYear_eq] at ho
      obtain ⟨e, he, rfl⟩ := List.mem_map.mp ho
      rw [List.mem_filter] at he
      exact hall e he.1 (by simpa using he.2)
    unfold npMeanList
    rw [sumOpt_all_some _ hns]
    simp only [Except.map]
    rw [length_magsInYear, count_yearsOf, magsInYear_eq, List.filterMap_map]
    rfl
  · intro hex
    obtain ⟨e, he, hy, hnone⟩ := hex
    have hmn : none ∈ magsInYear data y0 := by
      rw [magsInYear_eq]
      exact List.mem_map.mpr
        ⟨e, List.mem_filter.mpr ⟨he, by simp [hy]⟩, hnone⟩
    unfold npMeanList
    rw [sumOpt_has_none _ hmn]
    rfl

/-- C3 counterexample: a single record with null magnitude is counted in
its year (count 1, where the claim demands 0 — the record count with
non-null magnitude is 0), and the average computation raises
`TypeError`. -/
theorem yearTable_counts_null_magnitudes :
    yearTable [⟨none, 0, 0, 0⟩] =
      [(1970, 1, Except.error PyError.typeError)] ∧
    ([⟨none, 0, 0, 0⟩] : List Earthquake).countP
      (fun e => decide (e.mag ≠ none)) = 0 := by
  constructor
  · simp [yearTable, yearsOf, magnitudesOf, uniqueSorted, insertSorted,
      magsInYear, npMeanList, sumOpt, Except.map, get_magnitude,
      codeYear_eq_int, List.count_cons]
  · decide

/-- C3 witness at a one-record collection with year 1970 and
magnitude 5. -/
theorem yearTable_entry_characterisation_witness :
    (1970, 1, Except.ok (5 : ℚ)) ∈ yearTable [⟨some 5, 0, 1, 2⟩] ∧
    (1 = ([⟨some 5, 0, 1, 2⟩] : List Earthquake).countP
        (fun e => codeYear e.time == 1970) ∧
      ((∀ e ∈ ([⟨some 5, 0, 1, 2⟩] : List Earthquake),
          codeYear e.time = 1970 → e.mag ≠ none) →
        (Except.ok (5 : ℚ) : Except PyError ℚ) = Except.ok
          (((([⟨some 5, 0, 1, 2⟩] : List Earthquake).filter
              (fun e => codeYear e.time == 1970)).filterMap
                get_magnitude).sum / ((1 : Nat) : ℚ))) ∧
      ((∃ e ∈ ([⟨some 5, 0, 1, 2⟩] : List Earthquake),
          codeYear e.time = 1970 ∧ e.mag = none) →
        (Except.ok (5 : ℚ) : Except PyError ℚ)
          = Except.error PyError.typeError)) :=
  ⟨by simp [yearTable, yearsOf, magnitudesOf, uniqueSorted, insertSorted,
      magsInYear, npMeanList, sumOpt, Except.map, get_magnitude,
      codeYear_eq_int, List.count_cons],
    yearTable_entry_characterisation _ 1970 1 (Except.ok 5)
      (by simp [yearTable, yearsOf, magnitudesOf, uniqueSorted, insertSorted,
        magsInYear, npMeanList, sumOpt, Except.map, get_magnitude,
        codeYear_eq_int, List.count_cons])⟩
